import Mathlib

/-!
Verification development for the SFTP mirroring scripts
`SFTP_Cliente1.py` and `SFTP_Cliente2.py`.

The two scripts perform a one-way mirror of a source SFTP tree into a
destination SFTP tree:

 1. snapshot the destination tree(s) by a recursive listing,
 2. snapshot the source tree by a recursive listing restricted to a
    recency predicate (exact day for Cliente1, a day window for Cliente2),
 3. for each source file decide Skip / Create / Replace by comparing
    sizes at the same relative path,
 4. run a per-file removal / download / upload pipeline with per-file
    error isolation, counting outcomes in six counters,
 5. upload the run log.

This file is a shallow embedding of those scripts.  Python dicts are
modelled as association lists with insertion-order semantics
(assignment overwrites in place, fresh keys append), dates as integer
day numbers, the remote tree as an inductive value on which a
directory listing either succeeds or raises, and each fallible
try-block of the per-file pipeline as an oracle boolean saying whether
the block completes or raises.  Side effects of the pipeline are
reified as a trace of actions.
-/

namespace SFTP

/-- The per-file record the walkers store:
Python dict value of the form with keys tamanho (st_size) and data
(modification date, modelled as an integer day number). -/
structure FileInfo where
  tamanho : Nat
  data : Int
  deriving DecidableEq, Repr

/-- A Python dict from remote path (or relative path) to `FileInfo`,
modelled as an insertion-ordered association list with unique keys. -/
abbrev Dict := List (String × FileInfo)

/-- Python dict lookup `m[k]` / `k in m` (keys are unique, so the first
match is the only match). -/
def dlookup (m : Dict) (k : String) : Option FileInfo :=
  match m with
  | [] => none
  | (ka, v) :: rest => if ka = k then some v else dlookup rest k

/-- Python dict assignment `m[k] = v`: overwrite in place if the key is
present, append otherwise. -/
def dinsert (m : Dict) (k : String) (v : FileInfo) : Dict :=
  match m with
  | [] => [(k, v)]
  | (ka, va) :: rest =>
      if ka = k then (k, v) :: rest else (ka, va) :: dinsert rest k v

/-- Python `m.update(n)` and `\x7b**m, **n\x7d`: insert the items of `n`
into `m` in order. -/
def dupdate (m n : Dict) : Dict :=
  n.foldl (fun acc p => dinsert acc p.1 p.2) m

/-- Python `s.startswith(p)` on character lists (pattern first). -/
def temPre : List Char → List Char → Bool
  | [], _ => true
  | _ :: _, [] => false
  | a :: pr, b :: s => a == b && temPre pr s

/-- Fuelled worker for `substituir`: scan left to right, replacing each
non-overlapping occurrence of the pattern.  The fuel (an upper bound on
the number of characters consumed) makes the recursion structural, so
concrete instances compute inside the kernel. -/
def substituirGo (pat rep : List Char) : Nat → List Char → List Char
  | 0, s => s
  | _ + 1, [] => []
  | fuel + 1, c :: rest =>
      if temPre pat (c :: rest) then
        rep ++ substituirGo pat rep fuel ((c :: rest).drop pat.length)
      else
        c :: substituirGo pat rep fuel rest

/-- Python `s.replace(pat, rep)`: all occurrences, scanned left to
right, non-overlapping.  (The scripts never call replace with an empty
pattern; that corner returns `s` unchanged.) -/
def substituir (s pat rep : String) : String :=
  if pat.data = [] then s
  else ⟨substituirGo pat.data rep.data s.data.length s.data⟩

/-- Python `s.rstrip("/")`. -/
def rstripSlash (s : String) : String :=
  ⟨(s.data.reverse.dropWhile (fun c => c == '/')).reverse⟩

/-- Python `s.lstrip("/")`. -/
def lstripSlash (s : String) : String :=
  ⟨s.data.dropWhile (fun c => c == '/')⟩

/-- The scripts' remote path join: rstrip the slashes of `remote_dir`,
append a slash and the entry name, then `.replace("//", "/")`. -/
def pjoin (remote_dir nome : String) : String :=
  substituir (rstripSlash remote_dir ++ "/" ++ nome) "//" "/"

/-- Occurrence test on character lists (pattern first). -/
def temSubLista (pat : List Char) : List Char → Bool
  | [] => temPre pat []
  | c :: rest => temPre pat (c :: rest) || temSubLista pat rest

/-- Python `sub in s` for strings. -/
def temSubstr (s sub : String) : Bool :=
  temSubLista sub.data s.data

/-- Everything after the first occurrence of the pattern (pattern
first); the empty list when the pattern does not occur. -/
def aposLista (pat : List Char) : List Char → List Char
  | [] => []
  | c :: rest =>
      if temPre pat (c :: rest) then (c :: rest).drop pat.length
      else aposLista pat rest

/-- Python `s.split(sep, 1)[1]`: everything after the first occurrence
of `sep` (the scripts only call it after testing `sep in s`). -/
def aposPrimeiro (s sep : String) : String :=
  ⟨aposLista sep.data s.data⟩

/-- Drop a leading occurrence of `pre` from `s` (helper for `relpath`). -/
def stripLeading (pre s : String) : String :=
  if temPre pre.data s.data then ⟨s.data.drop pre.data.length⟩ else s

/-- Models `os.path.relpath(caminho, base).replace(chr(92), "/")` for the
paths this program produces: the walkers only yield `caminho` of the form
`rstrip-slash of base ++ "/" ++ rel`, on which relpath returns `rel`.
There are no backslashes in these paths, so the replace is the identity. -/
def relpath (caminho base : String) : String :=
  lstripSlash (stripLeading (rstripSlash base) caminho)

/-- Models `os.path.dirname`: the text before the final slash, the empty
string when there is no slash.  (For the single corner `dirname "/x"`
Python returns "/" while this returns ""; the scripts only call it on
multi-segment paths.) -/
def dirname (p : String) : String :=
  match p.data.reverse.dropWhile (fun c => c != '/') with
  | [] => ""
  | _ :: t => ⟨t.reverse⟩

/-- The remote tree as seen through `sftp.listdir_attr`, with the
iteration structure of the walkers' `for entry in entries` loop fused
in: a value represents the rest of one directory's listing.  `nil` ends
a listing; `file` and `dir` are `entry.filename` with `entry.st_size`
and the date of `entry.st_mtime` (a directory is an entry whose
`entry.longname` starts with "d", and carries its own listing); `fail`
means the iteration raises at this point.  A directory whose
`listdir_attr` raises is `fail` at the head of its listing; since the
scripts' try-block wraps the whole loop, a `fail` further down the
chain models an exception mid-iteration, after which the entries
already collected are kept.
-/
inductive RDir where
  | fail : RDir
  | nil : RDir
  | file : String → Nat → Int → RDir → RDir
  | dir : String → Int → RDir → RDir → RDir
  deriving DecidableEq, Repr

namespace Cliente1

/-- The `for entry in entries` loop of `listar_arquivos_sftp_recursivo`
in SFTP_Cliente1.py, with the dict `arquivos` accumulated so far.  A
file entry is stored (under the joined remote path) iff `filtro_data`
is None or the file's modification date equals it; a directory entry
contributes `arquivos.update(...)` with its recursively listed subtree,
walked from an empty dict; a raising iteration returns the entries
collected so far. -/
def listarEntries1 (remote_dir : String) (filtro_data : Option Int) :
    RDir → Dict → Dict
  | RDir.fail, arquivos => arquivos
  | RDir.nil, arquivos => arquivos
  | RDir.file nome tam dmod rest, arquivos =>
      let caminho_remoto := pjoin remote_dir nome
      let incluir : Bool :=
        match filtro_data with
        | none => true
        | some d => dmod == d
      let arquivos :=
        if incluir then dinsert arquivos caminho_remoto ⟨tam, dmod⟩
        else arquivos
      listarEntries1 remote_dir filtro_data rest arquivos
  | RDir.dir nome _ sub rest, arquivos =>
      let caminho_remoto := pjoin remote_dir nome
      listarEntries1 remote_dir filtro_data rest
        (dupdate arquivos (listarEntries1 caminho_remoto filtro_data sub []))

/-- `listar_arquivos_sftp_recursivo` of SFTP_Cliente1.py: recursive
listing rooted at `remote_dir`, starting from the empty dict
`arquivos`; a directory whose `listdir_attr` raises contributes the
empty dict. -/
def listar_arquivos_sftp_recursivo (remote_dir : String)
    (filtro_data : Option Int) (t : RDir) : Dict :=
  listarEntries1 remote_dir filtro_data t []
end Cliente1

namespace Cliente2

/-- The `for entry in entries` loop of `listar_arquivos_sftp_recursivo`
in SFTP_Cliente2.py.  A file entry is stored iff `filtro_data_min` is
None or its modification date is ≥ the threshold; a directory entry at
recursion level 0 whose own modification date is strictly below the
threshold is skipped without descending, and otherwise contributes its
recursively listed subtree at level `nivel + 1`. -/
def listarEntries2 (remote_dir : String) (nivel : Nat)
    (filtro_data_min : Option Int) : RDir → Dict → Dict
  | RDir.fail, arquivos => arquivos
  | RDir.nil, arquivos => arquivos
  | RDir.file nome tam dmod rest, arquivos =>
      let caminho_remoto := pjoin remote_dir nome
      let incluir : Bool :=
        match filtro_data_min with
        | none => true
        | some d => decide (d ≤ dmod)
      let arquivos :=
        if incluir then dinsert arquivos caminho_remoto ⟨tam, dmod⟩
        else arquivos
      listarEntries2 remote_dir nivel filtro_data_min rest arquivos
  | RDir.dir nome dmod sub rest, arquivos =>
      let caminho_remoto := pjoin remote_dir nome
      let podar : Bool :=
        nivel == 0 &&
          (match filtro_data_min with
           | none => false
           | some d => decide (dmod < d))
      if podar then
        listarEntries2 remote_dir nivel filtro_data_min rest arquivos
      else
        listarEntries2 remote_dir nivel filtro_data_min rest
          (dupdate arquivos (listarEntries2 caminho_remoto (nivel + 1) filtro_data_min sub []))

/-- `listar_arquivos_sftp_recursivo` of SFTP_Cliente2.py: recursive
window-filtered listing rooted at `remote_dir` at recursion level
`nivel`, starting from the empty dict. -/
def listar_arquivos_sftp_recursivo (remote_dir : String) (nivel : Nat)
    (filtro_data_min : Option Int) (t : RDir) : Dict :=
  listarEntries2 remote_dir nivel filtro_data_min t []
end Cliente2

/-- The six counters of `StatusContador` (shared verbatim by both
scripts). -/
structure Status where
  novos : Nat := 0
  iguais : Nat := 0
  reenviados : Nat := 0
  erros_download : Nat := 0
  erros_upload : Nat := 0
  erros_remocao : Nat := 0
  deriving DecidableEq, Repr

/-- The fresh `StatusContador()` built at the start of `main`. -/
def Status.inicial : Status := {}

/-- The three-way decision both main loops take for one source entry:
skip (`iguais`), resend (`reenviados`), or new (`novos`). -/
inductive Decisao where
  | pular : Decisao
  | reenviar : Decisao
  | novo : Decisao
  deriving DecidableEq, Repr

/-- The decision branch of both main loops: look the key up in the
destination dict; present with equal size ⇒ skip, present with a
different size ⇒ remove-and-resend, absent ⇒ new.  (In Cliente1 the key
is the relative path in the merged `arquivos_dest_rel`; in Cliente2 it
is the full destination path in `arquivos_destino`.) -/
def decidir (dest : Dict) (chave : String) (tamanho_origem : Nat) : Decisao :=
  match dlookup dest chave with
  | some dados_dest =>
      if dados_dest.tamanho = tamanho_origem then Decisao.pular
      else Decisao.reenviar
  | none => Decisao.novo

/-- One observable remote/local side effect of the per-entry pipeline. -/
inductive Acao where
  | remover : String → Acao
  | baixar : String → String → Acao
  | criarDirs : String → Acao
  | enviar : String → String → Acao
  deriving DecidableEq, Repr

/-- Oracles for the fallible try-blocks of one entry's pipeline: whether
the removal block completes without raising, whether
`sftp_rm.exists(destino_path)` is true, whether the download block
completes, and whether the upload block completes.  Exceptions are
modelled at try-block granularity: a block either performs its effects
and succeeds, or raises (its partial effects are abstracted to the
attempt recorded in the trace). -/
structure EntryEnv where
  remocaoOk : Bool
  destExiste : Bool
  downloadOk : Bool
  uploadOk : Bool

namespace Cliente1

/-- Steps 3 and 4 of Cliente1's per-entry pipeline: the local temporary
download (`cfg.temp_dir / rel_path`, `sftp_orig.get`), which on failure
increments `erros_download` and `continue`s to the next entry, and
otherwise the upload block (`ensure_remote_dirs` on the dirname of the
destination path, then `sftp_envio.put`), which on failure increments
`erros_upload`. -/
def etapasTransferencia (temp_dir caminho_remoto rel_path destino_path : String)
    (env : EntryEnv) (status : Status) (tr : List Acao) : Status × List Acao :=
  let local_temp := temp_dir ++ "/" ++ rel_path
  let tr := tr ++ [Acao.baixar caminho_remoto local_temp]
  if env.downloadOk then
    let pasta_dest := dirname destino_path
    let tr := tr ++ [Acao.criarDirs pasta_dest, Acao.enviar local_temp destino_path]
    if env.uploadOk then (status, tr)
    else ({ status with erros_upload := status.erros_upload + 1 }, tr)
  else
    ({ status with erros_download := status.erros_download + 1 }, tr)

/-- The body of Cliente1's `for caminho_remoto, dados in arquivos_origem.items()`
loop: compute the relative and destination paths, decide, on a resend
run the removal try-block (removes `destino_path` when it exists;
a raising block increments `erros_remocao` but the entry still
proceeds), then run the download/upload steps unless the entry was
skipped.  Returns the updated counters and the trace of attempted
actions. -/
def processarEntrada (arquivos_dest_rel : Dict)
    (temp_dir destino_uploads_dir origem_remote_dir : String)
    (caminho_remoto : String) (dados : FileInfo) (env : EntryEnv)
    (status : Status) : Status × List Acao :=
  let rel_path := relpath caminho_remoto origem_remote_dir
  let destino_path := pjoin destino_uploads_dir rel_path
  match decidir arquivos_dest_rel rel_path dados.tamanho with
  | Decisao.pular =>
      ({ status with iguais := status.iguais + 1 }, [])
  | Decisao.reenviar =>
      let tr := if env.destExiste then [Acao.remover destino_path] else []
      let status :=
        if env.remocaoOk then status
        else { status with erros_remocao := status.erros_remocao + 1 }
      let status := { status with reenviados := status.reenviados + 1 }
      etapasTransferencia temp_dir caminho_remoto rel_path destino_path env status tr
  | Decisao.novo =>
      let status := { status with novos := status.novos + 1 }
      etapasTransferencia temp_dir caminho_remoto rel_path destino_path env status []

/-- Lines 275–280 of SFTP_Cliente1.py: convert one destination listing
path to a relative key, by splitting after the first "/uploads/" when
that literal occurs in the path, and otherwise deleting the occurrences
of the two destination root prefixes; then normalise separators and
strip leading slashes. -/
def relDestino (destino_uploads_dir destino_processados_dir caminho : String) : String :=
  let rel :=
    if temSubstr caminho "/uploads/" then aposPrimeiro caminho "/uploads/"
    else
      substituir
        (substituir caminho (rstripSlash destino_uploads_dir ++ "/") "")
        (rstripSlash destino_processados_dir ++ "/") ""
  lstripSlash (substituir rel "\x5c" "/")

/-- Lines 273–281 of SFTP_Cliente1.py: build `arquivos_dest_rel` by
iterating the merged dict of the uploads and processados listings
(uploads first, processados inserted after) and assigning each record
under its relativised key — a later assignment to the same relative key
overwrites the earlier one. -/
def buildDestRel (destino_uploads_dir destino_processados_dir : String)
    (arquivos_dest_uploads arquivos_dest_proc : Dict) : Dict :=
  (dupdate arquivos_dest_uploads arquivos_dest_proc).foldl
    (fun acc p =>
      dinsert acc (relDestino destino_uploads_dir destino_processados_dir p.1) p.2)
    []

/-- The configuration strings Cliente1's `main` consumes. -/
structure Cfg where
  destino_uploads_dir : String
  destino_processados_dir : String
  origem_remote_dir : String
  temp_dir : String

/-- The run environment Cliente1's `main` runs against: whether each of
the two top-level `pysftp.Connection` calls succeeds, the listing trees
of the three roots, a per-entry oracle keyed by the source path, and
today's date. -/
structure MainEnv where
  destConnOk : Bool
  origConnOk : Bool
  uploadsTree : RDir
  procTree : RDir
  origemTree : RDir
  porEntrada : String → EntryEnv
  hoje : Int

/-- The merged destination snapshot Cliente1's `main` reconciles
against: both destination roots are listed with `filtro_data`
set to today, then relativised and merged. -/
def destRelDe (cfg : Cfg) (env : MainEnv) : Dict :=
  buildDestRel cfg.destino_uploads_dir cfg.destino_processados_dir
    (listar_arquivos_sftp_recursivo cfg.destino_uploads_dir (some env.hoje) env.uploadsTree)
    (listar_arquivos_sftp_recursivo cfg.destino_processados_dir (some env.hoje) env.procTree)

/-- The source snapshot of Cliente1's `main`: the source root listed
with `filtro_data` set to today. -/
def origemDe (cfg : Cfg) (env : MainEnv) : Dict :=
  listar_arquivos_sftp_recursivo cfg.origem_remote_dir (some env.hoje) env.origemTree

/-- One iteration of Cliente1's per-entry loop, threading the counters
and the accumulated action trace. -/
def passoEntrada (arquivos_dest_rel : Dict) (cfg : Cfg) (env : MainEnv)
    (st : Status × List Acao) (p : String × FileInfo) : Status × List Acao :=
  let r :=
    processarEntrada arquivos_dest_rel cfg.temp_dir cfg.destino_uploads_dir
      cfg.origem_remote_dir p.1 p.2 (env.porEntrada p.1) st.1
  (r.1, st.2 ++ r.2)

/-- Cliente1's `main` after configuration/log setup: a failing
destination or source `pysftp.Connection` propagates (modelled as
`Except.error`); otherwise the run lists, reconciles, processes every
source entry in order, and completes with the final counters and the
concatenated action trace.  The final log-upload step catches its own
errors and changes neither counters nor outcome, so it is not part of
the result. -/
def main (cfg : Cfg) (env : MainEnv) : Except String (Status × List Acao) :=
  if env.destConnOk = false then Except.error "falha de conexao ao destino" else
  let arquivos_dest_rel := destRelDe cfg env
  if env.origConnOk = false then Except.error "falha de conexao a origem" else
  let arquivos_origem := origemDe cfg env
  Except.ok <|
    arquivos_origem.foldl (passoEntrada arquivos_dest_rel cfg env) (Status.inicial, [])
end Cliente1

namespace Cliente2

/-- The download and upload steps of Cliente2's per-entry pipeline.
The download try-block fetches into `cfg.temp_dir / rel_path` and, when
`keep_extra_local_copy` is set, fetches a second copy into
`cfg.base_dir / rel_path`; a raising block increments `erros_download`
and `continue`s.  The upload block then creates missing destination
directories and puts the staged file, incrementing `erros_upload` on
failure. -/
def etapasTransferencia (temp_dir base_dir caminho rel_path caminho_dest : String)
    (keep_extra_local_copy : Bool) (env : EntryEnv) (status : Status)
    (tr : List Acao) : Status × List Acao :=
  let local_temp := temp_dir ++ "/" ++ rel_path
  let tr := tr ++ [Acao.baixar caminho local_temp]
  if env.downloadOk then
    let tr :=
      if keep_extra_local_copy then
        tr ++ [Acao.baixar caminho (base_dir ++ "/" ++ rel_path)]
      else tr
    let pasta_dest := dirname caminho_dest
    let tr := tr ++ [Acao.criarDirs pasta_dest, Acao.enviar local_temp caminho_dest]
    if env.uploadOk then (status, tr)
    else ({ status with erros_upload := status.erros_upload + 1 }, tr)
  else
    ({ status with erros_download := status.erros_download + 1 }, tr)

/-- The body of Cliente2's `for caminho, dados in arquivos_origem.items()`
loop: the destination key is the full destination path
`caminho_dest`, looked up in the single destination snapshot; the
decision and the removal / download / upload stages mirror Cliente1. -/
def processarEntrada (arquivos_destino : Dict)
    (temp_dir base_dir destino_remote_dir origem_remote_dir : String)
    (keep_extra_local_copy : Bool) (caminho : String) (dados : FileInfo)
    (env : EntryEnv) (status : Status) : Status × List Acao :=
  let rel_path := relpath caminho origem_remote_dir
  let caminho_dest := pjoin destino_remote_dir rel_path
  match decidir arquivos_destino caminho_dest dados.tamanho with
  | Decisao.pular =>
      ({ status with iguais := status.iguais + 1 }, [])
  | Decisao.reenviar =>
      let tr := if env.destExiste then [Acao.remover caminho_dest] else []
      let status :=
        if env.remocaoOk then status
        else { status with erros_remocao := status.erros_remocao + 1 }
      let status := { status with reenviados := status.reenviados + 1 }
      etapasTransferencia temp_dir base_dir caminho rel_path caminho_dest
        keep_extra_local_copy env status tr
  | Decisao.novo =>
      let status := { status with novos := status.novos + 1 }
      etapasTransferencia temp_dir base_dir caminho rel_path caminho_dest
        keep_extra_local_copy env status []

/-- The configuration Cliente2's `main` consumes. -/
structure Cfg where
  destino_remote_dir : String
  origem_remote_dir : String
  temp_dir : String
  base_dir : String
  keep_extra_local_copy : Bool

/-- The run environment of Cliente2's `main`: the two top-level
connection outcomes, the two listing trees, the per-entry oracles, and
`data_limite = (today - days_back)`. -/
structure MainEnv where
  destConnOk : Bool
  origConnOk : Bool
  destinoTree : RDir
  origemTree : RDir
  porEntrada : String → EntryEnv
  data_limite : Int

/-- The destination snapshot Cliente2's `main` reconciles against: the
single destination root listed with `filtro_data_min = data_limite`
(and with the level-0 pruning heuristic active). -/
def arquivosDestinoDe (cfg : Cfg) (env : MainEnv) : Dict :=
  listar_arquivos_sftp_recursivo cfg.destino_remote_dir 0 (some env.data_limite)
    env.destinoTree

/-- The source snapshot of Cliente2's `main`. -/
def origemDe (cfg : Cfg) (env : MainEnv) : Dict :=
  listar_arquivos_sftp_recursivo cfg.origem_remote_dir 0 (some env.data_limite)
    env.origemTree

/-- One iteration of Cliente2's per-entry loop. -/
def passoEntrada (arquivos_destino : Dict) (cfg : Cfg) (env : MainEnv)
    (st : Status × List Acao) (p : String × FileInfo) : Status × List Acao :=
  let r :=
    processarEntrada arquivos_destino cfg.temp_dir cfg.base_dir
      cfg.destino_remote_dir cfg.origem_remote_dir cfg.keep_extra_local_copy
      p.1 p.2 (env.porEntrada p.1) st.1
  (r.1, st.2 ++ r.2)

/-- Cliente2's `main` after configuration/log setup, shaped exactly like
Cliente1's: failing top-level connections propagate, per-entry errors
are converted to counters, the final log upload catches its own errors. -/
def main (cfg : Cfg) (env : MainEnv) : Except String (Status × List Acao) :=
  if env.destConnOk = false then Except.error "falha de conexao ao destino" else
  let arquivos_destino := arquivosDestinoDe cfg env
  if env.origConnOk = false then Except.error "falha de conexao a origem" else
  let arquivos_origem := origemDe cfg env
  Except.ok <|
    arquivos_origem.foldl (passoEntrada arquivos_destino cfg env) (Status.inicial, [])
end Cliente2

/-- Whether a run completed (reached the summary) rather than abort on a
top-level failure. -/
def rodou (r : Except String (Status × List Acao)) : Bool :=
  match r with
  | Except.ok _ => true
  | Except.error _ => false

/-- Classifier: the action is a destination-object removal. -/
def ehRemover : Acao → Bool
  | Acao.remover _ => true
  | _ => false

/-- Classifier: the action is a download into local staging. -/
def ehBaixar : Acao → Bool
  | Acao.baixar _ _ => true
  | _ => false

/-- Classifier: the action is part of publishing (remote directory
creation or upload). -/
def ehPublicar : Acao → Bool
  | Acao.criarDirs _ => true
  | Acao.enviar _ _ => true
  | _ => false

/-- Specification-side summary of how one processed entry moves the six
counters, as a function of its reconciliation decision and its stage
oracles: exactly one of the three decision counters is incremented, at
decision time; the removal-error counter is incremented in addition
when a resend's removal block raised; the download-error counter when a
non-skipped entry's download raised; the upload-error counter when a
non-skipped entry downloaded but its upload raised. -/
def contadoresEntrada (dec : Decisao) (env : EntryEnv) (s : Status) : Status where
  novos := s.novos + (if dec = Decisao.novo then 1 else 0)
  iguais := s.iguais + (if dec = Decisao.pular then 1 else 0)
  reenviados := s.reenviados + (if dec = Decisao.reenviar then 1 else 0)
  erros_download :=
    s.erros_download + (if dec ≠ Decisao.pular ∧ env.downloadOk = false then 1 else 0)
  erros_upload :=
    s.erros_upload +
      (if dec ≠ Decisao.pular ∧ env.downloadOk = true ∧ env.uploadOk = false then 1 else 0)
  erros_remocao :=
    s.erros_remocao + (if dec = Decisao.reenviar ∧ env.remocaoOk = false then 1 else 0)

/-- The sum of the three decision counters. -/
def somaDecisao (s : Status) : Nat :=
  s.novos + s.iguais + s.reenviados

/-- All values stored in a dict satisfy `P`. -/
def ValoresOk (P : FileInfo → Prop) (m : Dict) : Prop :=
  ∀ p ∈ m, P p.2

theorem dlookup_dinsert (m : Dict) (k ka : String) (v : FileInfo) :
    dlookup (dinsert m k v) ka = if k = ka then some v else dlookup m ka := by
  induction m with
  | nil => simp [dinsert, dlookup]
  | cons p rest ih =>
      rcases p with ⟨pk, pv⟩
      by_cases h : pk = k
      · subst h
        by_cases h2 : pk = ka
        · subst h2; simp [dinsert, dlookup]
        · simp [dinsert, dlookup, h2]
      · by_cases h2 : pk = ka
        · subst h2
          have hk : ¬ k = pk := fun hx => h hx.symm
          simp [dinsert, dlookup, h, hk]
        · simp [dinsert, dlookup, h, h2, ih]

theorem mem_dinsert (m : Dict) (k : String) (v : FileInfo) (p : String × FileInfo)
    (hp : p ∈ dinsert m k v) : p ∈ m ∨ p = (k, v) := by
  induction m with
  | nil => simp [dinsert] at hp; simp [hp]
  | cons q rest ih =>
      by_cases h : q.1 = k
      · simp only [dinsert, h, if_pos rfl] at hp
        rcases List.mem_cons.mp hp with h1 | h1
        · right; exact h1
        · left; exact List.mem_cons_of_mem _ h1
      · simp only [dinsert, h, if_neg h] at hp
        rcases List.mem_cons.mp hp with h1 | h1
        · left; exact h1 ▸ List.mem_cons_self _ _
        · rcases ih h1 with h2 | h2
          · left; exact List.mem_cons_of_mem _ h2
          · right; exact h2

theorem valoresOk_dinsert {P : FileInfo → Prop} {m : Dict} {k : String} {v : FileInfo}
    (hm : ValoresOk P m) (hv : P v) : ValoresOk P (dinsert m k v) := by
  intro p hp
  rcases mem_dinsert m k v p hp with h | h
  · exact hm p h
  · rw [h]; exact hv

theorem valoresOk_dupdate {P : FileInfo → Prop} {m n : Dict}
    (hm : ValoresOk P m) (hn : ValoresOk P n) : ValoresOk P (dupdate m n) := by
  induction n generalizing m with
  | nil => exact hm
  | cons q rest ih =>
      have hq : P q.2 := hn q (List.mem_cons_self _ _)
      have hrest : ValoresOk P rest := fun p hp => hn p (List.mem_cons_of_mem _ hp)
      simpa [dupdate] using ih (valoresOk_dinsert hm hq) hrest

theorem dlookup_valor {P : FileInfo → Prop} {m : Dict} (hm : ValoresOk P m)
    {k : String} {v : FileInfo} (h : dlookup m k = some v) : P v := by
  induction m with
  | nil => simp [dlookup] at h
  | cons q rest ih =>
      rcases q with ⟨qk, qv⟩
      by_cases hq : qk = k
      · simp only [dlookup, if_pos hq] at h
        have hv : qv = v := Option.some.inj h
        have := hm (qk, qv) (List.mem_cons_self _ _)
        rwa [hv] at this
      · simp only [dlookup, if_neg hq] at h
        exact ih (fun p hp => hm p (List.mem_cons_of_mem _ hp)) h

theorem valoresOk_nil {P : FileInfo → Prop} : ValoresOk P [] :=
  fun p hp => absurd hp (List.not_mem_nil p)

theorem listarEntries1_valores (d : Int) (t : RDir) :
    ∀ (remote_dir : String) (acc : Dict), ValoresOk (fun v => v.data = d) acc →
      ValoresOk (fun v => v.data = d) (Cliente1.listarEntries1 remote_dir (some d) t acc) := by
  induction t with
  | fail => intro dir acc h; simpa [Cliente1.listarEntries1] using h
  | nil => intro dir acc h; simpa [Cliente1.listarEntries1] using h
  | file nome tam dmod rest ih =>
      intro dir acc h
      by_cases hd : dmod = d
      · have : (⟨tam, dmod⟩ : FileInfo).data = d := hd
        simpa [Cliente1.listarEntries1, hd] using
          ih dir (dinsert acc (pjoin dir nome) ⟨tam, dmod⟩) (valoresOk_dinsert h this)
      · simpa [Cliente1.listarEntries1, hd] using ih dir acc h
  | dir nome dm sub rest ihsub ihrest =>
      intro dir acc h
      have hsub := ihsub (pjoin dir nome) [] valoresOk_nil
      simpa [Cliente1.listarEntries1] using
        ihrest dir
          (dupdate acc (Cliente1.listarEntries1 (pjoin dir nome) (some d) sub []))
          (valoresOk_dupdate h hsub)

/-- All records a Cliente1 walk with an exact-day filter stores were
modified on that day. -/
theorem listar1_valores (remote_dir : String) (d : Int) (t : RDir) :
    ValoresOk (fun v => v.data = d)
      (Cliente1.listar_arquivos_sftp_recursivo remote_dir (some d) t) :=
  listarEntries1_valores d t remote_dir [] valoresOk_nil

theorem listarEntries2_valores (d : Int) (t : RDir) :
    ∀ (remote_dir : String) (nivel : Nat) (acc : Dict),
      ValoresOk (fun v => d ≤ v.data) acc →
      ValoresOk (fun v => d ≤ v.data)
        (Cliente2.listarEntries2 remote_dir nivel (some d) t acc) := by
  induction t with
  | fail => intro dir n acc h; simpa [Cliente2.listarEntries2] using h
  | nil => intro dir n acc h; simpa [Cliente2.listarEntries2] using h
  | file nome tam dmod rest ih =>
      intro dir n acc h
      by_cases hd : d ≤ dmod
      · have : d ≤ (⟨tam, dmod⟩ : FileInfo).data := hd
        simpa [Cliente2.listarEntries2, hd] using
          ih dir n (dinsert acc (pjoin dir nome) ⟨tam, dmod⟩) (valoresOk_dinsert h this)
      · simpa [Cliente2.listarEntries2, hd] using ih dir n acc h
  | dir nome dm sub rest ihsub ihrest =>
      intro dir n acc h
      by_cases hp : (n == 0 && decide (dm < d)) = true
      · simpa [Cliente2.listarEntries2, hp] using ihrest dir n acc h
      · have hsub := ihsub (pjoin dir nome) (n + 1) [] valoresOk_nil
        simpa [Cliente2.listarEntries2, hp] using
          ihrest dir n
            (dupdate acc (Cliente2.listarEntries2 (pjoin dir nome) (n + 1) (some d) sub []))
            (valoresOk_dupdate h hsub)

/-- All records a Cliente2 walk with a window filter stores were
modified at or after the window threshold. -/
theorem listar2_valores (remote_dir : String) (nivel : Nat) (d : Int) (t : RDir) :
    ValoresOk (fun v => d ≤ v.data)
      (Cliente2.listar_arquivos_sftp_recursivo remote_dir nivel (some d) t) :=
  listarEntries2_valores d t remote_dir nivel [] valoresOk_nil

/-- The relativisation fold of Cliente1 lines 273–281 only stores values
drawn from its input dict. -/
theorem valoresOk_relFold {P : FileInfo → Prop} (rel : String → String) (l : Dict) :
    ∀ acc : Dict, ValoresOk P l → ValoresOk P acc →
      ValoresOk P (l.foldl (fun acc p => dinsert acc (rel p.1) p.2) acc) := by
  induction l with
  | nil => intro acc _ hacc; simpa using hacc
  | cons q rest ih =>
      intro acc hl hacc
      have hq : P q.2 := hl q (List.mem_cons_self _ _)
      have hrest : ValoresOk P rest := fun p hp => hl p (List.mem_cons_of_mem _ hp)
      simpa using ih (dinsert acc (rel q.1) q.2) hrest (valoresOk_dinsert hacc hq)

/-- Cliente1's per-entry pipeline moves the six counters exactly as the
summary `contadoresEntrada` says, as a function of the entry's decision
and its stage oracles. -/
theorem processar1_contadores (adr : Dict) (temp_dir ud od caminho : String)
    (dados : FileInfo) (env : EntryEnv) (status : Status) :
    (Cliente1.processarEntrada adr temp_dir ud od caminho dados env status).1 =
      contadoresEntrada (decidir adr (relpath caminho od) dados.tamanho) env status := by
  obtain ⟨rem, dest, dl, up⟩ := env
  cases hdec : decidir adr (relpath caminho od) dados.tamanho <;>
    cases rem <;> cases dl <;> cases up <;>
      simp [Cliente1.processarEntrada, Cliente1.etapasTransferencia, contadoresEntrada, hdec]

/-- Cliente2's per-entry pipeline moves the six counters identically. -/
theorem processar2_contadores (ad : Dict) (temp_dir base_dir dd od : String)
    (keep : Bool) (caminho : String) (dados : FileInfo) (env : EntryEnv)
    (status : Status) :
    (Cliente2.processarEntrada ad temp_dir base_dir dd od keep caminho dados env status).1 =
      contadoresEntrada (decidir ad (pjoin dd (relpath caminho od)) dados.tamanho) env
        status := by
  obtain ⟨rem, dest, dl, up⟩ := env
  cases hdec : decidir ad (pjoin dd (relpath caminho od)) dados.tamanho <;>
    cases rem <;> cases dl <;> cases up <;> cases keep <;>
      simp [Cliente2.processarEntrada, Cliente2.etapasTransferencia, contadoresEntrada, hdec]

theorem somaDecisao_contadoresEntrada (dec : Decisao) (env : EntryEnv) (s : Status) :
    somaDecisao (contadoresEntrada dec env s) = somaDecisao s + 1 := by
  cases dec <;> simp [contadoresEntrada, somaDecisao] <;> omega

theorem fold1_somaDecisao (adr : Dict) (cfg : Cliente1.Cfg) (env : Cliente1.MainEnv)
    (l : Dict) : ∀ init : Status × List Acao,
    somaDecisao ((l.foldl (Cliente1.passoEntrada adr cfg env) init).1) =
      somaDecisao init.1 + l.length := by
  induction l with
  | nil => intro init; simp
  | cons p rest ih =>
      intro init
      rw [List.foldl_cons, ih]
      have h1 : (Cliente1.passoEntrada adr cfg env init p).1 =
          (Cliente1.processarEntrada adr cfg.temp_dir cfg.destino_uploads_dir
            cfg.origem_remote_dir p.1 p.2 (env.porEntrada p.1) init.1).1 := rfl
      rw [h1, processar1_contadores, somaDecisao_contadoresEntrada]
      simp [List.length_cons]
      omega

theorem fold2_somaDecisao (ad : Dict) (cfg : Cliente2.Cfg) (env : Cliente2.MainEnv)
    (l : Dict) : ∀ init : Status × List Acao,
    somaDecisao ((l.foldl (Cliente2.passoEntrada ad cfg env) init).1) =
      somaDecisao init.1 + l.length := by
  induction l with
  | nil => intro init; simp
  | cons p rest ih =>
      intro init
      rw [List.foldl_cons, ih]
      have h1 : (Cliente2.passoEntrada ad cfg env init p).1 =
          (Cliente2.processarEntrada ad cfg.temp_dir cfg.base_dir cfg.destino_remote_dir
            cfg.origem_remote_dir cfg.keep_extra_local_copy p.1 p.2
            (env.porEntrada p.1) init.1).1 := rfl
      rw [h1, processar2_contadores, somaDecisao_contadoresEntrada]
      simp [List.length_cons]
      omega

/-- The value of the last entry of `l` whose relativised key is `r`
(later entries of `l` are assigned later, so they win). -/
def ultimoValor (rel : String → String) (r : String) : Dict → Option FileInfo
  | [] => none
  | p :: rest =>
      match ultimoValor rel r rest with
      | some v => some v
      | none => if rel p.1 = r then some p.2 else none

theorem dlookup_relFold (rel : String → String) (l : Dict) :
    ∀ (acc : Dict) (r : String),
      dlookup (l.foldl (fun acc p => dinsert acc (rel p.1) p.2) acc) r =
        match ultimoValor rel r l with
        | some v => some v
        | none => dlookup acc r := by
  induction l with
  | nil => intro acc r; simp [ultimoValor]
  | cons p rest ih =>
      intro acc r
      rw [List.foldl_cons, ih]
      show _ = (match ultimoValor rel r (p :: rest) with
        | some v => some v
        | none => dlookup acc r)
      rw [show ultimoValor rel r (p :: rest) = match ultimoValor rel r rest with
          | some v => some v
          | none => if rel p.1 = r then some p.2 else none from rfl]
      cases hu : ultimoValor rel r rest with
      | some v => simp
      | none =>
          simp only []
          rw [dlookup_dinsert]
          by_cases hr : rel p.1 = r <;> simp [hr]

theorem ultimoValor_append (rel : String → String) (r : String) (a b : Dict) :
    ultimoValor rel r (a ++ b) =
      match ultimoValor rel r b with
      | some v => some v
      | none => ultimoValor rel r a := by
  induction a with
  | nil => cases hu : ultimoValor rel r b <;> simp [hu, ultimoValor]
  | cons p rest ih =>
      rw [List.cons_append]
      rw [show ultimoValor rel r (p :: (rest ++ b)) = match ultimoValor rel r (rest ++ b) with
          | some v => some v
          | none => if rel p.1 = r then some p.2 else none from rfl]
      rw [ih]
      cases hu : ultimoValor rel r b <;> cases hu2 : ultimoValor rel r rest <;>
        simp [ultimoValor, hu, hu2]

theorem ultimoValor_mem (rel : String → String) (r : String) (l : Dict) :
    ∀ v, ultimoValor rel r l = some v → ∃ q ∈ l, rel q.1 = r ∧ q.2 = v := by
  induction l with
  | nil => intro v h; simp [ultimoValor] at h
  | cons p rest ih =>
      intro v h
      rw [show ultimoValor rel r (p :: rest) = match ultimoValor rel r rest with
          | some w => some w
          | none => if rel p.1 = r then some p.2 else none from rfl] at h
      cases hu : ultimoValor rel r rest with
      | some w =>
          rw [hu] at h
          obtain ⟨q, hq, hrel, hv⟩ := ih w hu
          exact ⟨q, List.mem_cons_of_mem _ hq, hrel, by
            simpa [hv] using Option.some.inj h⟩
      | none =>
          rw [hu] at h
          by_cases hr : rel p.1 = r
          · simp only [hr, if_pos rfl] at h
            exact ⟨p, List.mem_cons_self _ _, hr, (Option.some.inj h).symm ▸ rfl⟩
          · simp [hr] at h

theorem ultimoValor_isSome (rel : String → String) (r : String) (l : Dict)
    (h : ∃ q ∈ l, rel q.1 = r) : (ultimoValor rel r l).isSome := by
  induction l with
  | nil => obtain ⟨q, hq, _⟩ := h; exact absurd hq (List.not_mem_nil q)
  | cons p rest ih =>
      rw [show ultimoValor rel r (p :: rest) = match ultimoValor rel r rest with
          | some w => some w
          | none => if rel p.1 = r then some p.2 else none from rfl]
      obtain ⟨q, hq, hrel⟩ := h
      rcases List.mem_cons.mp hq with h1 | h1
      · cases hu : ultimoValor rel r rest with
        | some w => simp
        | none => subst h1; simp [hrel]
      · have := ih ⟨q, h1, hrel⟩
        cases hu : ultimoValor rel r rest with
        | some w => simp
        | none => rw [hu] at this; simp at this

theorem dinsert_append (m : Dict) (k : String) (v : FileInfo)
    (h : dlookup m k = none) : dinsert m k v = m ++ [(k, v)] := by
  induction m with
  | nil => simp [dinsert]
  | cons p rest ih =>
      rcases p with ⟨pk, pv⟩
      by_cases hp : pk = k
      · simp [dlookup, hp] at h
      · simp only [dlookup, if_neg hp] at h
        simp [dinsert, hp, ih h]

theorem dlookup_append (a b : Dict) (k : String) :
    dlookup (a ++ b) k =
      match dlookup a k with
      | some v => some v
      | none => dlookup b k := by
  induction a with
  | nil => simp [dlookup]
  | cons p rest ih =>
      rcases p with ⟨pk, pv⟩
      by_cases hp : pk = k <;> simp [dlookup, hp, ih]

theorem dupdate_append (n : Dict) : ∀ m : Dict,
    (∀ q ∈ n, dlookup m q.1 = none) → (n.map Prod.fst).Nodup →
    dupdate m n = m ++ n := by
  induction n with
  | nil => intro m _ _; simp [dupdate]
  | cons q rest ih =>
      intro m hdisj hnd
      have hq : dlookup m q.1 = none := hdisj q (List.mem_cons_self _ _)
      have hstep : dupdate m (q :: rest) = dupdate (m ++ [q]) rest := by
        show (q :: rest).foldl (fun acc p => dinsert acc p.1 p.2) m = _
        rw [List.foldl_cons]
        rw [show dinsert m q.1 q.2 = m ++ [q] from by
          rw [dinsert_append m q.1 q.2 hq]]
        rfl
      rw [hstep]
      have hnd2 : (rest.map Prod.fst).Nodup := (List.nodup_cons.mp (by simpa using hnd)).2
      have hq1 : q.1 ∉ rest.map Prod.fst := (List.nodup_cons.mp (by simpa using hnd)).1
      have hdisj2 : ∀ p ∈ rest, dlookup (m ++ [q]) p.1 = none := by
        intro p hp
        rw [dlookup_append]
        rw [hdisj p (List.mem_cons_of_mem _ hp)]
        have hne : q.1 ≠ p.1 := by
          intro he
          exact hq1 (he ▸ List.mem_map_of_mem Prod.fst hp)
        simp [dlookup, hne]
      rw [ih (m ++ [q]) hdisj2 hnd2]
      simp

/-- Claim C1: the reconciliation decision both main loops take is Skip
iff the key is present in the (merged) destination snapshot with equal
`size_bytes`, Create iff it is absent, Replace iff it is present with a
different `size_bytes`; and the decision depends on the destination
snapshot only through the sizes it stores at the key — the modification
date is never consulted. -/
theorem claim_C1 : ∀ (dest : Dict) (chave : String) (tam : Nat),
    (decidir dest chave tam = Decisao.pular ↔
      ∃ dados, dlookup dest chave = some dados ∧ dados.tamanho = tam) ∧
    (decidir dest chave tam = Decisao.novo ↔ dlookup dest chave = none) ∧
    (decidir dest chave tam = Decisao.reenviar ↔
      ∃ dados, dlookup dest chave = some dados ∧ dados.tamanho ≠ tam) ∧
    (∀ dest2 : Dict,
      Option.map FileInfo.tamanho (dlookup dest2 chave) =
        Option.map FileInfo.tamanho (dlookup dest chave) →
      decidir dest2 chave tam = decidir dest chave tam) := by
  intro dest chave tam
  refine ⟨?_, ?_, ?_, ?_⟩
  · cases h : dlookup dest chave with
    | none => simp [decidir, h]
    | some dados =>
        by_cases ht : dados.tamanho = tam <;> simp [decidir, h, ht]
  · cases h : dlookup dest chave with
    | none => simp [decidir, h]
    | some dados =>
        by_cases ht : dados.tamanho = tam <;> simp [decidir, h, ht]
  · cases h : dlookup dest chave with
    | none => simp [decidir, h]
    | some dados =>
        by_cases ht : dados.tamanho = tam <;> simp [decidir, h, ht]
  · intro dest2 hsz
    cases h : dlookup dest chave with
    | none =>
        rw [h] at hsz
        have h2 : dlookup dest2 chave = none := by
          cases h2 : dlookup dest2 chave with
          | none => rfl
          | some w => rw [h2] at hsz; simp at hsz
        simp [decidir, h, h2]
    | some dados =>
        rw [h] at hsz
        cases h2 : dlookup dest2 chave with
        | none => rw [h2] at hsz; simp at hsz
        | some w =>
            rw [h2] at hsz
            simp at hsz
            simp [decidir, h, h2, hsz]

/-- Witness for C1 at a concrete input: two destination snapshots that
agree on the stored size but disagree on the stored modification date
produce the same decision, and that decision is Skip. -/
theorem claim_C1_witness :
    decidir [("x.txt", ⟨5, 99⟩)] "x.txt" 5 = decidir [("x.txt", ⟨5, 3⟩)] "x.txt" 5 ∧
    decidir [("x.txt", ⟨5, 3⟩)] "x.txt" 5 = Decisao.pular :=
  ⟨(claim_C1 [("x.txt", ⟨5, 3⟩)] "x.txt" 5).2.2.2 [("x.txt", ⟨5, 99⟩)] (by decide),
   (claim_C1 [("x.txt", ⟨5, 3⟩)] "x.txt" 5).1.mpr ⟨⟨5, 3⟩, by decide, by decide⟩⟩

/-- Counterexample to claim C4 as stated: an entry that is absent from
the destination (decision Create) and whose download then fails
increments two counters — `novos` at decision time and
`erros_download` at the failure — although its terminal outcome is a
download failure, not a removal failure.  So it is false that exactly
one counter is incremented per entry with `RemovalFailed` as the sole
exception. -/
theorem claim_C4_counterexample :
    Cliente1.processarEntrada [] "/t" "/d/uploads" "/o" "/o/a.txt" ⟨10, 9⟩
        ⟨true, false, false, true⟩ Status.inicial =
      ({ novos := 1, erros_download := 1 }, [Acao.baixar "/o/a.txt" "/t/a.txt"]) := by
  decide

/-- Claim C4 as amended: every processed entry increments exactly one of
the three decision counters (new / unchanged / replaced), at decision
time; the three error counters are incremented in addition — the
removal-error counter when a Replace entry's removal block raises, the
download-error counter when a non-skipped entry's download raises, and
the upload-error counter when a non-skipped entry downloads but its
upload raises.  Both clients move the counters exactly as
`contadoresEntrada` summarises. -/
theorem claim_C4_amended :
    ∀ (adr : Dict) (temp ud od caminho : String) (dados : FileInfo)
      (env : EntryEnv) (status : Status) (ad : Dict)
      (temp2 base2 dd od2 : String) (keep : Bool) (caminho2 : String)
      (dados2 : FileInfo) (env2 : EntryEnv) (status2 : Status),
    (Cliente1.processarEntrada adr temp ud od caminho dados env status).1 =
      contadoresEntrada (decidir adr (relpath caminho od) dados.tamanho) env status ∧
    (Cliente2.processarEntrada ad temp2 base2 dd od2 keep caminho2 dados2 env2 status2).1 =
      contadoresEntrada (decidir ad (pjoin dd (relpath caminho2 od2)) dados2.tamanho)
        env2 status2 := by
  intro adr temp ud od caminho dados env status ad temp2 base2 dd od2 keep caminho2
    dados2 env2 status2
  exact ⟨processar1_contadores adr temp ud od caminho dados env status,
    processar2_contadores ad temp2 base2 dd od2 keep caminho2 dados2 env2 status2⟩

/-- Claim C5: a listing failure is confined to its subtree.  A root
whose listing raises yields the empty snapshot (conjuncts 1–2, both
walkers); a directory entry whose subtree listing raises contributes
nothing — the walk continues with the same accumulated dict (the
entries already collected) and the remaining sibling entries, exactly
as if the subtree had listed empty (conjuncts 3–4).  The walkers are
total Lean functions, so no failure propagates out of the top-level
call. -/
theorem claim_C5 : ∀ (dir : String) (f : Option Int) (n : Nat) (nome : String)
    (m : Int) (rest : RDir) (acc : Dict),
    (Cliente1.listar_arquivos_sftp_recursivo dir f RDir.fail = []) ∧
    (Cliente2.listar_arquivos_sftp_recursivo dir n f RDir.fail = []) ∧
    (Cliente1.listarEntries1 dir f (RDir.dir nome m RDir.fail rest) acc =
      Cliente1.listarEntries1 dir f rest acc) ∧
    (Cliente2.listarEntries2 dir n f (RDir.dir nome m RDir.fail rest) acc =
      Cliente2.listarEntries2 dir n f rest acc) := by
  intro dir f n nome m rest acc
  refine ⟨rfl, rfl, rfl, ?_⟩
  simp [Cliente2.listarEntries2, dupdate]

/-- Claim C7: an entry present in the destination snapshot with equal
size is skipped: the only state change is `iguais := iguais + 1`, and
the action trace is empty — no removal, no download into staging, no
remote directory creation, no upload. -/
theorem claim_C7 :
    ∀ (adr : Dict) (temp ud od caminho : String) (dados : FileInfo)
      (env : EntryEnv) (status : Status) (ad : Dict)
      (temp2 base2 dd od2 : String) (keep : Bool) (caminho2 : String)
      (dados2 : FileInfo) (env2 : EntryEnv) (status2 : Status),
    (∀ dest_dados, dlookup adr (relpath caminho od) = some dest_dados →
      dest_dados.tamanho = dados.tamanho →
      Cliente1.processarEntrada adr temp ud od caminho dados env status =
        ({ status with iguais := status.iguais + 1 }, [])) ∧
    (∀ dest_dados, dlookup ad (pjoin dd (relpath caminho2 od2)) = some dest_dados →
      dest_dados.tamanho = dados2.tamanho →
      Cliente2.processarEntrada ad temp2 base2 dd od2 keep caminho2 dados2 env2 status2 =
        ({ status2 with iguais := status2.iguais + 1 }, [])) := by
  intro adr temp ud od caminho dados env status ad temp2 base2 dd od2 keep caminho2
    dados2 env2 status2
  constructor
  · intro dest_dados h1 h2
    have hdec : decidir adr (relpath caminho od) dados.tamanho = Decisao.pular := by
      simp [decidir, h1, h2]
    simp [Cliente1.processarEntrada, hdec]
  · intro dest_dados h1 h2
    have hdec : decidir ad (pjoin dd (relpath caminho2 od2)) dados2.tamanho =
        Decisao.pular := by
      simp [decidir, h1, h2]
    simp [Cliente2.processarEntrada, hdec]

/-- Witness for C7 at a concrete input: both clients skip an equal-size
entry with only the `iguais` counter moving and an empty trace. -/
theorem claim_C7_witness :
    Cliente1.processarEntrada [("x.txt", ⟨5, 1⟩)] "/t" "/d/uploads" "/o" "/o/x.txt"
        ⟨5, 9⟩ ⟨true, true, true, true⟩ Status.inicial =
      ({ iguais := 1 }, []) ∧
    Cliente2.processarEntrada [("/d/x.txt", ⟨5, 1⟩)] "/t" "/b" "/d" "/o" true "/o/x.txt"
        ⟨5, 9⟩ ⟨true, true, true, true⟩ Status.inicial =
      ({ iguais := 1 }, []) :=
  ⟨(claim_C7 [("x.txt", ⟨5, 1⟩)] "/t" "/d/uploads" "/o" "/o/x.txt" ⟨5, 9⟩
      ⟨true, true, true, true⟩ Status.inicial [("/d/x.txt", ⟨5, 1⟩)] "/t" "/b" "/d" "/o"
      true "/o/x.txt" ⟨5, 9⟩ ⟨true, true, true, true⟩ Status.inicial).1
      ⟨5, 1⟩ (by decide) (by decide),
   (claim_C7 [("x.txt", ⟨5, 1⟩)] "/t" "/d/uploads" "/o" "/o/x.txt" ⟨5, 9⟩
      ⟨true, true, true, true⟩ Status.inicial [("/d/x.txt", ⟨5, 1⟩)] "/t" "/b" "/d" "/o"
      true "/o/x.txt" ⟨5, 9⟩ ⟨true, true, true, true⟩ Status.inicial).2
      ⟨5, 1⟩ (by decide) (by decide)⟩

/-- Claim C8: in the window walk, a directory entry below the top
recursion level is always descended into, whatever its own
modification date (conjunct 1); a top-level directory whose
modification date is at or after the threshold is always descended
into (conjunct 2); a top-level directory strictly older than the
threshold is skipped entirely — its subtree is never walked and
contributes nothing (conjunct 3). -/
theorem claim_C8 : ∀ (dir : String) (nivel : Nat) (d dm : Int) (nome : String)
    (sub rest : RDir) (acc : Dict),
    (Cliente2.listarEntries2 dir (nivel + 1) (some d) (RDir.dir nome dm sub rest) acc =
      Cliente2.listarEntries2 dir (nivel + 1) (some d) rest
        (dupdate acc (Cliente2.listarEntries2 (pjoin dir nome) (nivel + 2) (some d) sub []))) ∧
    (d ≤ dm →
      Cliente2.listarEntries2 dir 0 (some d) (RDir.dir nome dm sub rest) acc =
        Cliente2.listarEntries2 dir 0 (some d) rest
          (dupdate acc (Cliente2.listarEntries2 (pjoin dir nome) 1 (some d) sub []))) ∧
    (dm < d →
      Cliente2.listarEntries2 dir 0 (some d) (RDir.dir nome dm sub rest) acc =
        Cliente2.listarEntries2 dir 0 (some d) rest acc) := by
  intro dir nivel d dm nome sub rest acc
  refine ⟨?_, ?_, ?_⟩
  · simp [Cliente2.listarEntries2]
  · intro h
    simp [Cliente2.listarEntries2, not_lt.mpr h]
  · intro h
    simp [Cliente2.listarEntries2, h]

/-- Witness for C8 at concrete inputs: with threshold 3, a top-level
directory of modification date 5 is descended into (its recent file
appears) and a top-level directory of modification date 1 is pruned
(its recent file does not appear). -/
theorem claim_C8_witness :
    Cliente2.listarEntries2 "/r" 0 (some 3) (RDir.dir "nova" 5
        (RDir.file "f.txt" 7 9 RDir.nil) RDir.nil) [] =
      Cliente2.listarEntries2 "/r" 0 (some 3) RDir.nil
        (dupdate [] (Cliente2.listarEntries2 (pjoin "/r" "nova") 1 (some 3)
          (RDir.file "f.txt" 7 9 RDir.nil) [])) ∧
    Cliente2.listarEntries2 "/r" 0 (some 3) (RDir.dir "velha" 1
        (RDir.file "g.txt" 7 9 RDir.nil) RDir.nil) [] =
      Cliente2.listarEntries2 "/r" 0 (some 3) RDir.nil [] :=
  ⟨(claim_C8 "/r" 0 3 5 "nova" (RDir.file "f.txt" 7 9 RDir.nil) RDir.nil []).2.1
      (by decide),
   (claim_C8 "/r" 0 3 1 "velha" (RDir.file "g.txt" 7 9 RDir.nil) RDir.nil []).2.2
      (by decide)⟩

/-- Concrete Cliente1 configuration used by several concrete runs. -/
def exCfgC2 : Cliente1.Cfg := ⟨"/d/uploads", "/d/proc", "/o", "/t"⟩

/-- A run in which the destination holds `x.txt` of size 5 modified
yesterday (day 8) while the source holds `x.txt` of size 5 modified
today (day 9). -/
def exEnvC2 : Cliente1.MainEnv := {
  destConnOk := true, origConnOk := true,
  uploadsTree := RDir.file "x.txt" 5 8 RDir.nil,
  procTree := RDir.nil,
  origemTree := RDir.file "x.txt" 5 9 RDir.nil,
  porEntrada := fun _ => ⟨true, true, true, true⟩,
  hoje := 9 }

/-- Counterexample to claim C2 as stated: the destination listings are
passed the same date filter as the source (`filtro_data=data_hoje` in
Cliente1, `filtro_data_min=data_limite` in Cliente2), so the
destination snapshot does NOT contain every file currently present
under the destination root.  Concretely: `x.txt` is present under the
uploads root with size 5 (first conjunct, unfiltered walk), yet the
merged destination snapshot the run reconciles against is empty
(second conjunct), and the run re-sends the equal-size file as new —
`novos = 1`, `iguais = 0` (third conjunct). -/
theorem claim_C2_counterexample :
    dlookup (Cliente1.listar_arquivos_sftp_recursivo "/d/uploads" none
        (RDir.file "x.txt" 5 8 RDir.nil)) "/d/uploads/x.txt" = some ⟨5, 8⟩ ∧
    Cliente1.destRelDe exCfgC2 exEnvC2 = [] ∧
    Cliente1.main exCfgC2 exEnvC2 = Except.ok
      ({ novos := 1 },
       [Acao.baixar "/o/x.txt" "/t/x.txt", Acao.criarDirs "/d/uploads",
        Acao.enviar "/t/x.txt" "/d/uploads/x.txt"]) :=
  ⟨by decide, by decide, rfl⟩

/-- Claim C2 as amended: the recency predicate restricts the
destination snapshots as well as the source snapshot.  Every record in
the merged destination snapshot Cliente1 reconciles against was
modified exactly on `hoje`, and every record in the destination
snapshot Cliente2 reconciles against was modified at or after
`data_limite`. -/
theorem claim_C2_amended :
    (∀ (cfg : Cliente1.Cfg) (env : Cliente1.MainEnv) (k : String) (v : FileInfo),
      dlookup (Cliente1.destRelDe cfg env) k = some v → v.data = env.hoje) ∧
    (∀ (cfg : Cliente2.Cfg) (env : Cliente2.MainEnv) (k : String) (v : FileInfo),
      dlookup (Cliente2.arquivosDestinoDe cfg env) k = some v →
        env.data_limite ≤ v.data) := by
  constructor
  · intro cfg env k v h
    have hval : ValoresOk (fun v => v.data = env.hoje) (Cliente1.destRelDe cfg env) := by
      unfold Cliente1.destRelDe Cliente1.buildDestRel
      exact valoresOk_relFold _ _ []
        (valoresOk_dupdate (listar1_valores _ _ _) (listar1_valores _ _ _)) valoresOk_nil
    exact dlookup_valor hval h
  · intro cfg env k v h
    exact dlookup_valor (listar2_valores _ _ _ _) h

/-- A Cliente1 run whose uploads root holds a file modified today. -/
def exEnvC2w : Cliente1.MainEnv := {
  destConnOk := true, origConnOk := true,
  uploadsTree := RDir.file "w.txt" 4 9 RDir.nil,
  procTree := RDir.nil,
  origemTree := RDir.nil,
  porEntrada := fun _ => ⟨true, true, true, true⟩,
  hoje := 9 }

/-- Concrete Cliente2 configuration. -/
def exCfg2w : Cliente2.Cfg := ⟨"/d", "/o", "/t", "/b", false⟩

/-- A Cliente2 run whose destination root holds a file inside the
window. -/
def exEnv2w : Cliente2.MainEnv := {
  destConnOk := true, origConnOk := true,
  destinoTree := RDir.file "a.txt" 2 9 RDir.nil,
  origemTree := RDir.nil,
  porEntrada := fun _ => ⟨true, true, true, true⟩,
  data_limite := 5 }

/-- Witness for the amended C2 at concrete inputs. -/
theorem claim_C2_amended_witness :
    (FileInfo.mk 4 9).data = exEnvC2w.hoje ∧
    exEnv2w.data_limite ≤ (FileInfo.mk 2 9).data :=
  ⟨claim_C2_amended.1 exCfgC2 exEnvC2w "w.txt" ⟨4, 9⟩ (by decide),
   claim_C2_amended.2 exCfg2w exEnv2w "/d/a.txt" ⟨2, 9⟩ (by decide)⟩

/-- A run in which every root listing raises (`RDir.fail`) but both
sessions open. -/
def exEnvC3 : Cliente1.MainEnv := {
  destConnOk := true, origConnOk := true,
  uploadsTree := RDir.fail,
  procTree := RDir.fail,
  origemTree := RDir.fail,
  porEntrada := fun _ => ⟨true, true, true, true⟩,
  hoje := 9 }

/-- Counterexample to claim C3 as stated: an inability to enumerate any
configured root at all (every `listdir_attr` raises) is NOT run-fatal —
the walker catches it, every snapshot is empty, and the run completes
normally through the reconciliation phase with zero counters, instead
of aborting. -/
theorem claim_C3_counterexample :
    Cliente1.main exCfgC2 exEnvC3 = Except.ok (Status.inicial, []) ∧
    rodou (Cliente1.main exCfgC2 exEnvC3) = true :=
  ⟨rfl, rfl⟩

/-- Claim C3 as amended: no per-entry error (removal, download or
upload failure, all oracles in the environment) and no listing error
terminates a run — a run completes exactly when the two top-level
session opens succeed, and a root whose enumeration raises merely
contributes an empty snapshot (last two conjuncts). -/
theorem claim_C3_amended : ∀ (cfg1 : Cliente1.Cfg) (env1 : Cliente1.MainEnv)
    (cfg2 : Cliente2.Cfg) (env2 : Cliente2.MainEnv) (dir : String) (n : Nat)
    (f : Option Int),
    (rodou (Cliente1.main cfg1 env1) = true ↔
      env1.destConnOk = true ∧ env1.origConnOk = true) ∧
    (rodou (Cliente2.main cfg2 env2) = true ↔
      env2.destConnOk = true ∧ env2.origConnOk = true) ∧
    (Cliente1.listar_arquivos_sftp_recursivo dir f RDir.fail = []) ∧
    (Cliente2.listar_arquivos_sftp_recursivo dir n f RDir.fail = []) := by
  intro cfg1 env1 cfg2 env2 dir n f
  refine ⟨?_, ?_, rfl, rfl⟩
  · cases h1 : env1.destConnOk <;> cases h2 : env1.origConnOk <;>
      simp [Cliente1.main, h1, h2, rodou]
  · cases h1 : env2.destConnOk <;> cases h2 : env2.origConnOk <;>
      simp [Cliente2.main, h1, h2, rodou]

/-- Concrete Cliente2 run with one source file and empty destination. -/
def exCfg2C10 : Cliente2.Cfg := ⟨"/d", "/o", "/t", "/b", false⟩

/-- Environment for the Cliente2 concrete run. -/
def exEnv2C10 : Cliente2.MainEnv := {
  destConnOk := true, origConnOk := true,
  destinoTree := RDir.nil,
  origemTree := RDir.file "a.txt" 2 9 RDir.nil,
  porEntrada := fun _ => ⟨true, true, true, true⟩,
  data_limite := 5 }

/-- Witness for the amended C3: the run with failing root listings
completes. -/
theorem claim_C3_amended_witness :
    rodou (Cliente1.main exCfgC2 exEnvC3) = true ∧
    rodou (Cliente2.main exCfg2C10 exEnv2C10) = true :=
  ⟨(claim_C3_amended exCfgC2 exEnvC3 exCfg2C10 exEnv2C10 "/x" 0 none).1.mpr
      ⟨by decide, by decide⟩,
   (claim_C3_amended exCfgC2 exEnvC3 exCfg2C10 exEnv2C10 "/x" 0 none).2.1.mpr
      ⟨by decide, by decide⟩⟩

/-- Claim C6: for a Replace decision with the destination object
present, the removal is the first attempted action, before staging and
publishing, and a download is still attempted afterwards whatever the
removal block's outcome (the statement does not assume `remocaoOk`);
and when an entry's download fails, no publish action (remote
directory creation or upload) is attempted for it — the per-entry
function returns and the loop proceeds to the next entry.  Both
clients. -/
theorem claim_C6 : ∀ (adr : Dict) (temp ud od caminho : String) (dados : FileInfo)
    (env : EntryEnv) (status : Status) (ad : Dict) (temp2 base2 dd od2 : String)
    (keep : Bool) (caminho2 : String) (dados2 : FileInfo) (env2 : EntryEnv)
    (status2 : Status),
    (decidir adr (relpath caminho od) dados.tamanho = Decisao.reenviar →
      env.destExiste = true →
      ∃ resto, (Cliente1.processarEntrada adr temp ud od caminho dados env status).2 =
          Acao.remover (pjoin ud (relpath caminho od)) :: resto ∧
        resto.any ehBaixar = true) ∧
    (env.downloadOk = false →
      ((Cliente1.processarEntrada adr temp ud od caminho dados env status).2).all
        (fun a => !ehPublicar a) = true) ∧
    (decidir ad (pjoin dd (relpath caminho2 od2)) dados2.tamanho = Decisao.reenviar →
      env2.destExiste = true →
      ∃ resto,
        (Cliente2.processarEntrada ad temp2 base2 dd od2 keep caminho2 dados2 env2
            status2).2 =
          Acao.remover (pjoin dd (relpath caminho2 od2)) :: resto ∧
        resto.any ehBaixar = true) ∧
    (env2.downloadOk = false →
      ((Cliente2.processarEntrada ad temp2 base2 dd od2 keep caminho2 dados2 env2
          status2).2).all (fun a => !ehPublicar a) = true) := by
  intro adr temp ud od caminho dados env status ad temp2 base2 dd od2 keep caminho2
    dados2 env2 status2
  obtain ⟨rem, dest, dl, up⟩ := env
  obtain ⟨rem2, dest2, dl2, up2⟩ := env2
  refine ⟨?_, ?_, ?_, ?_⟩
  · intro hdec hex
    subst hex
    cases rem <;> cases dl <;> cases up <;>
      simp [Cliente1.processarEntrada, Cliente1.etapasTransferencia, hdec, ehBaixar]
  · intro hdl
    subst hdl
    cases hdec : decidir adr (relpath caminho od) dados.tamanho <;> cases dest <;>
      simp [Cliente1.processarEntrada, Cliente1.etapasTransferencia, hdec, ehPublicar,
        ehRemover, ehBaixar]
  · intro hdec hex
    subst hex
    cases rem2 <;> cases dl2 <;> cases up2 <;> cases keep <;>
      simp [Cliente2.processarEntrada, Cliente2.etapasTransferencia, hdec, ehBaixar]
  · intro hdl
    subst hdl
    cases hdec : decidir ad (pjoin dd (relpath caminho2 od2)) dados2.tamanho <;>
      cases dest2 <;> cases keep <;>
        simp [Cliente2.processarEntrada, Cliente2.etapasTransferencia, hdec, ehPublicar,
          ehRemover, ehBaixar]

/-- Witness for C6 at a concrete input whose removal block fails
(`remocaoOk = false`): the trace still begins with the removal and
still contains a download. -/
theorem claim_C6_witness :
    ∃ resto, (Cliente1.processarEntrada [("a.txt", ⟨1, 0⟩)] "/t" "/d/uploads" "/o"
        "/o/a.txt" ⟨2, 0⟩ ⟨false, true, true, true⟩ Status.inicial).2 =
      Acao.remover (pjoin "/d/uploads" (relpath "/o/a.txt" "/o")) :: resto ∧
      resto.any ehBaixar = true :=
  (claim_C6 [("a.txt", ⟨1, 0⟩)] "/t" "/d/uploads" "/o" "/o/a.txt" ⟨2, 0⟩
    ⟨false, true, true, true⟩ Status.inicial [] "/t2" "/b2" "/d2" "/o2" false "/o2/b"
    ⟨0, 0⟩ ⟨true, true, true, true⟩ Status.inicial).1 (by decide) rfl

/-- Claim C9: when destination snapshots are merged and relativised
(uploads first, processados after) and some processados entry
relativises to `r`, the record stored at `r` in the merged snapshot
comes from a processados entry — the later-merged snapshot wins.
Hypotheses: the two snapshots share no full remote path (their roots
differ), and the processados snapshot has no duplicate keys (it is a
dict). -/
theorem claim_C9 : ∀ (ud pd r : String) (uploads proc : Dict),
    (∀ q ∈ proc, dlookup uploads q.1 = none) →
    (proc.map Prod.fst).Nodup →
    (∃ q ∈ proc, Cliente1.relDestino ud pd q.1 = r) →
    ∃ q ∈ proc, Cliente1.relDestino ud pd q.1 = r ∧
      dlookup (Cliente1.buildDestRel ud pd uploads proc) r = some q.2 := by
  intro ud pd r uploads proc hdisj hnd hr
  have hfold : dlookup (Cliente1.buildDestRel ud pd uploads proc) r =
      match ultimoValor (Cliente1.relDestino ud pd) r (uploads ++ proc) with
      | some v => some v
      | none => dlookup [] r := by
    show dlookup ((dupdate uploads proc).foldl
      (fun acc p => dinsert acc (Cliente1.relDestino ud pd p.1) p.2) []) r = _
    rw [dupdate_append proc uploads hdisj hnd]
    exact dlookup_relFold (Cliente1.relDestino ud pd) (uploads ++ proc) [] r
  rw [ultimoValor_append] at hfold
  have hs := ultimoValor_isSome (Cliente1.relDestino ud pd) r proc hr
  obtain ⟨v, hv⟩ := Option.isSome_iff_exists.mp hs
  obtain ⟨q, hq, hrel, hqv⟩ := ultimoValor_mem (Cliente1.relDestino ud pd) r proc v hv
  refine ⟨q, hq, hrel, ?_⟩
  rw [hfold, hv]
  exact congrArg some hqv.symm

/-- Witness for C9 at a concrete input: `a.txt` appears under both
destination roots with different sizes; the merged snapshot stores the
processados record. -/
theorem claim_C9_witness :
    ∃ q ∈ ([("/d/proc/a.txt", (⟨2, 9⟩ : FileInfo))] : Dict),
      Cliente1.relDestino "/d/uploads" "/d/proc" q.1 = "a.txt" ∧
      dlookup (Cliente1.buildDestRel "/d/uploads" "/d/proc"
        [("/d/uploads/a.txt", ⟨1, 9⟩)] [("/d/proc/a.txt", ⟨2, 9⟩)]) "a.txt" =
        some q.2 :=
  claim_C9 "/d/uploads" "/d/proc" "a.txt" [("/d/uploads/a.txt", ⟨1, 9⟩)]
    [("/d/proc/a.txt", ⟨2, 9⟩)] (by decide) (by decide)
    ⟨("/d/proc/a.txt", ⟨2, 9⟩), by decide, by decide⟩

/-- Claim C10: in every run that completes, the sum of the three
decision counters equals the number of entries of the source snapshot:
each source entry increments exactly one of new / unchanged / replaced
at decision time, whatever its later download or upload outcome (the
per-entry oracles are arbitrary).  Both clients. -/
theorem claim_C10 : ∀ (cfg1 : Cliente1.Cfg) (env1 : Cliente1.MainEnv) (st1 : Status)
    (tr1 : List Acao) (cfg2 : Cliente2.Cfg) (env2 : Cliente2.MainEnv) (st2 : Status)
    (tr2 : List Acao),
    (Cliente1.main cfg1 env1 = Except.ok (st1, tr1) →
      st1.novos + st1.iguais + st1.reenviados = (Cliente1.origemDe cfg1 env1).length) ∧
    (Cliente2.main cfg2 env2 = Except.ok (st2, tr2) →
      st2.novos + st2.iguais + st2.reenviados = (Cliente2.origemDe cfg2 env2).length) := by
  intro cfg1 env1 st1 tr1 cfg2 env2 st2 tr2
  constructor
  · intro h
    cases h1 : env1.destConnOk <;> cases h2 : env1.origConnOk <;>
      rw [Cliente1.main] at h <;> simp [h1, h2] at h
    have hsum := fold1_somaDecisao (Cliente1.destRelDe cfg1 env1) cfg1 env1
      (Cliente1.origemDe cfg1 env1) (Status.inicial, [])
    rw [h] at hsum
    simpa [somaDecisao, Status.inicial] using hsum
  · intro h
    cases h2 : env2.destConnOk <;> cases h3 : env2.origConnOk <;>
      rw [Cliente2.main] at h <;> simp [h2, h3] at h
    have hsum := fold2_somaDecisao (Cliente2.arquivosDestinoDe cfg2 env2) cfg2 env2
      (Cliente2.origemDe cfg2 env2) (Status.inicial, [])
    rw [h] at hsum
    simpa [somaDecisao, Status.inicial] using hsum

/-- Concrete Cliente1 run with one new source file. -/
def exEnvC10 : Cliente1.MainEnv := {
  destConnOk := true, origConnOk := true,
  uploadsTree := RDir.nil, procTree := RDir.nil,
  origemTree := RDir.file "a.txt" 2 9 RDir.nil,
  porEntrada := fun _ => ⟨true, true, true, true⟩,
  hoje := 9 }

/-- Witness for C10: both concrete runs complete with
`novos + iguais + reenviados = 1` and one source entry each. -/
theorem claim_C10_witness :
    ({ novos := 1 } : Status).novos + ({ novos := 1 } : Status).iguais +
        ({ novos := 1 } : Status).reenviados =
      (Cliente1.origemDe exCfgC2 exEnvC10).length ∧
    ({ novos := 1 } : Status).novos + ({ novos := 1 } : Status).iguais +
        ({ novos := 1 } : Status).reenviados =
      (Cliente2.origemDe exCfg2C10 exEnv2C10).length :=
  ⟨(claim_C10 exCfgC2 exEnvC10 { novos := 1 }
      [Acao.baixar "/o/a.txt" "/t/a.txt", Acao.criarDirs "/d/uploads",
        Acao.enviar "/t/a.txt" "/d/uploads/a.txt"]
      exCfg2C10 exEnv2C10 { novos := 1 }
      [Acao.baixar "/o/a.txt" "/t/a.txt", Acao.criarDirs "/d",
        Acao.enviar "/t/a.txt" "/d/a.txt"]).1 rfl,
   (claim_C10 exCfgC2 exEnvC10 { novos := 1 }
      [Acao.baixar "/o/a.txt" "/t/a.txt", Acao.criarDirs "/d/uploads",
        Acao.enviar "/t/a.txt" "/d/uploads/a.txt"]
      exCfg2C10 exEnv2C10 { novos := 1 }
      [Acao.baixar "/o/a.txt" "/t/a.txt", Acao.criarDirs "/d",
        Acao.enviar "/t/a.txt" "/d/a.txt"]).2 rfl⟩

end SFTP
